import Mathlib

/-!
# Verification of `storage_monitor.py` (tellor-io/node-storage-monitor)

Shallow embedding of the storage monitor: a periodic host-storage monitor
that samples disk metrics, classifies each against warning/critical
thresholds, and sends Discord webhook notifications on level transitions.

Modelling conventions:
* Python floats are modelled as rationals (`ℚ`); binary floating-point
  representation effects are out of scope (the spec declares NaN/float
  validation a non-goal).
* Alert levels are the Python strings `"normal"` / `"warning"` /
  `"critical"`, exactly as the source stores and compares them.
* The persisted state (Python `dict` in insertion order) is an association
  list `List (String × String)`; `dict.get`/`dict.__setitem__` are embedded
  by `stateGet` / `setKey` below.
* I/O collaborators (filesystem walk, `journalctl` subprocess,
  `shutil.disk_usage`, the webhook POST) are modelled by their observable
  results: an `Option` that is `none` exactly on the failure paths that the
  source catches, and the list of messages handed to `send_discord_alert`.
* The `json` standard library (an external collaborator, not repository
  code) is modelled at the level of the JSON value written/read
  (`Json` below); `json.dump`/`json.load` round-tripping of the textual
  encoding is assumed as stdlib behaviour.
-/

/-- Threshold pair for one metric, `{'warning': w, 'critical': c}`
(storage_monitor.py lines 27-32). -/
structure Thresholds where
  warning : ℚ
  critical : ℚ
deriving DecidableEq, Repr

/-- Embeds `StorageMonitor.determine_alert_level` (lines 137-144):
`critical` if `value >= thresholds['critical']`, else `warning` if
`value >= thresholds['warning']`, else `normal`. The `is_percentage`
parameter is accepted (default `False` as in the source) and, as in the
source body, never read. -/
def determine_alert_level (value : ℚ) (thresholds : Thresholds)
    (is_percentage : Bool := false) : String :=
  if value ≥ thresholds.critical then "critical"
  else if value ≥ thresholds.warning then "warning"
  else "normal"

/-- The monitor state mapping (Python `dict` from metric key to level
string, in insertion order). -/
abbrev StateMap : Type := List (String × String)

/-- First-occurrence lookup in the state mapping: embeds Python
`dict.__getitem__`/`get` access on `self.last_states`. -/
def lookupKey : StateMap → String → Option String
  | [], _ => none
  | p :: rest, k => if p.1 == k then some p.2 else lookupKey rest k

/-- Embeds `self.last_states.get(metric_key, 'normal')` (line 228). -/
def stateGet (st : StateMap) (k : String) : String :=
  (lookupKey st k).getD "normal"

/-- Embeds Python dict assignment `self.last_states[metric_key] =
current_level` (line 247): replace the binding in place if the key is
present, else append it. -/
def setKey : StateMap → String → String → StateMap
  | [], k, v => [(k, v)]
  | p :: rest, k, v => if p.1 == k then (k, v) :: rest else p :: setKey rest k v

/-- Embeds the alert decision of `check_and_alert` (lines 230-236):
`should_alert = False`; set to `True` if the level changed to a non-normal
level, or, `elif`, the level recovered to normal from a non-normal one. -/
def should_alert (current_level last_level : String) : Bool :=
  if current_level != "normal" && last_level != current_level then true
  else if current_level == "normal" && last_level != "normal" then true
  else false

/-- The notification rule as the specification words it (§4.2): notify iff
`current_level != prior_level` and (`current_level != normal` or
`prior_level != normal`). Stated from the spec's words, to be compared
with `should_alert`, which is taken from the source. -/
def spec_notify_rule (current_level prior_level : String) : Bool :=
  current_level != prior_level &&
    (current_level != "normal" || prior_level != "normal")

/-- Round half-to-even to an integer, the rounding used by Python's
fixed-point string formatting. -/
def roundHalfEven (q : ℚ) : ℤ :=
  let f := Rat.floor q
  if q - f < 1/2 then f
  else if q - f > 1/2 then f + 1
  else if f % 2 = 0 then f else f + 1

/-- Fixed-point decimal rendering with `digits` fractional digits: embeds
Python `f"{x:.2f}"` / `f"{x:.1f}"` over our rational model of floats
(binary-float representation effects are out of scope). -/
def fmtDec (digits : ℕ) (q : ℚ) : String :=
  let scaled := roundHalfEven (q * (10 : ℚ) ^ digits)
  let sign := if scaled < 0 then "-" else ""
  let a := scaled.natAbs
  let ip := a / 10 ^ digits
  let fp := a % 10 ^ digits
  let fpStr := toString fp
  let pad := String.mk (List.replicate (digits - fpStr.length) '0')
  sign ++ toString ip ++ "." ++ pad ++ fpStr

/-- Embeds the `emoji_map.get(level, '📊')` lookup of
`format_alert_message` (lines 170-171). -/
def emoji_map (level : String) : String :=
  if level == "warning" then "⚠️"
  else if level == "critical" then "🚨"
  else if level == "normal" then "✅"
  else "📊"

/-- Embeds `StorageMonitor.format_alert_message` (lines 167-178). -/
def format_alert_message (server_name metric_name : String) (value : ℚ)
    (unit level : String) (threshold_warning threshold_critical : ℚ) : String :=
  emoji_map level ++ " **" ++ server_name ++ " - " ++ metric_name ++ "** - "
    ++ level.toUpper ++ "\n"
    ++ "Current: " ++ fmtDec 2 value ++ " " ++ unit ++ "\n"
    ++ "Warning: " ++ fmtDec 2 threshold_warning ++ " " ++ unit ++ "\n"
    ++ "Critical: " ++ fmtDec 2 threshold_critical ++ " " ++ unit

/-- Embeds `StorageMonitor.format_status_report` (lines 180-189). -/
def format_status_report (server_name : String)
    (layer_size home_size journal_size sys_usage sys_free sys_total : ℚ) : String :=
  "**🪖 Storage Status for " ++ server_name ++ "**\n"
    ++ "**Home Directory (excl .layer):** " ++ fmtDec 2 home_size ++ " GB\n"
    ++ "**~/.layer Directory:** " ++ fmtDec 2 layer_size ++ " GB\n"
    ++ "**Journal Logs:** " ++ fmtDec 2 journal_size ++ " GB\n"
    ++ "**System Storage:** " ++ fmtDec 1 sys_usage ++ "% used ("
    ++ fmtDec 1 sys_free ++ " GB free of " ++ fmtDec 1 sys_total ++ " GB total)\n\n"

/-- One entry of the `metrics` list of `check_and_alert` (lines 220-225):
`(metric_key, metric_name, value, current_level, unit)`. -/
structure Metric where
  key : String
  name : String
  value : ℚ
  level : String
  unit : String
deriving DecidableEq, Repr

/-- Embeds the per-metric alert loop of `check_and_alert` (lines 227-247):
for each metric, read the prior level with default `'normal'`, append the
formatted alert message when `should_alert`, and unconditionally update the
state for that key; the state is threaded through the loop exactly as the
mutation of `self.last_states` is. Returns the collected
`alerts_to_send` and the final state. -/
def alertLoop (thr : String → Thresholds) (server_name : String) :
    List Metric → StateMap → List String × StateMap
  | [], st => ([], st)
  | m :: rest, st =>
    let last_level := stateGet st m.key
    let msgs :=
      if should_alert m.level last_level then
        [format_alert_message server_name m.name m.value m.unit m.level
          (thr m.key).warning (thr m.key).critical]
      else []
    let r := alertLoop thr server_name rest (setKey st m.key m.level)
    (msgs ++ r.1, r.2)

/-- Embeds `StorageMonitor.get_directory_size` (lines 54-71) by its
observable result: `walk_bytes` is the total byte count accumulated by the
`os.walk` traversal, `none` when the path does not exist or the traversal
raises `OSError`/`PermissionError` (those paths return `0.0`); on success
the byte total is converted to GB. -/
def get_directory_size (walk_bytes : Option ℕ) : ℚ :=
  match walk_bytes with
  | none => 0
  | some total => (total : ℚ) / 1024 ^ 3

/-- Embeds `StorageMonitor.get_home_dir_size_excluding_layer`
(lines 73-93): same shape as `get_directory_size`, with the `.layer`
subtree already excluded from the byte total by the walk. -/
def get_home_dir_size_excluding_layer (walk_bytes : Option ℕ) : ℚ :=
  match walk_bytes with
  | none => 0
  | some total => (total : ℚ) / 1024 ^ 3

/-- Embeds the `multipliers` dict of `get_journal_size` (line 119),
including the `.get(unit, 1/(1024**3))` default. -/
def journal_multipliers (unit : String) : ℚ :=
  if unit == "" then 1 / 1024 ^ 3
  else if unit == "K" then 1 / 1024 ^ 2
  else if unit == "M" then 1 / 1024
  else if unit == "G" then 1
  else if unit == "T" then 1024
  else 1 / 1024 ^ 3

/-- Embeds `StorageMonitor.get_journal_size` (lines 95-124) by its
observable result: `parsed` is the `(size_value, unit)` pair extracted from
the `journalctl --disk-usage` output, `none` on every failure path
(subprocess error, timeout, non-zero exit, unparseable output) — all of
which make the source return `0.0`. -/
def get_journal_size (parsed : Option (ℚ × String)) : ℚ :=
  match parsed with
  | some p => p.1 * journal_multipliers p.2
  | none => 0

/-- Embeds `StorageMonitor.get_system_storage` (lines 126-135):
`disk_usage` is the `(total, used, free)` byte triple from
`shutil.disk_usage('/')`, `none` when it raises; the division by a zero
total also raises inside the `try` and lands in the `(0,0,0)` branch. -/
def get_system_storage (disk_usage : Option (ℕ × ℕ × ℕ)) : ℚ × ℚ × ℚ :=
  match disk_usage with
  | some t =>
    if t.1 = 0 then (0, 0, 0)
    else ((t.2.1 : ℚ) / (t.1 : ℚ) * 100, (t.2.2 : ℚ) / 1024 ^ 3, (t.1 : ℚ) / 1024 ^ 3)
  | none => (0, 0, 0)

/-- The threshold table `self.thresholds` (lines 27-32): one pair per
metric key. -/
structure ThresholdTable where
  layer_dir : Thresholds
  home_dir : Thresholds
  journal_logs : Thresholds
  system_storage : Thresholds
deriving DecidableEq, Repr

/-- Embeds the dict lookup `self.thresholds[metric_key]` (line 239) for
the four keys the monitor uses (any other key would raise `KeyError` in
the source and is never queried). -/
def ThresholdTable.lookup (t : ThresholdTable) (k : String) : Thresholds :=
  if k == "layer_dir" then t.layer_dir
  else if k == "home_dir" then t.home_dir
  else if k == "journal_logs" then t.journal_logs
  else t.system_storage

/-- The built-in default thresholds (lines 27-32). -/
def default_thresholds : ThresholdTable :=
  { layer_dir := ⟨10, 20⟩
    home_dir := ⟨50, 100⟩
    journal_logs := ⟨5, 10⟩
    system_storage := ⟨80, 95⟩ }

/-- The collaborator results one cycle of `check_and_alert` consumes:
each field is the observable outcome of one Metric Source call, `none` on
the failure paths the source catches (see the getter embeddings above). -/
structure RawInputs where
  layer_walk : Option ℕ
  home_walk : Option ℕ
  journal_parsed : Option (ℚ × String)
  disk_usage : Option (ℕ × ℕ × ℕ)
deriving DecidableEq, Repr

/-- The configuration a `StorageMonitor` instance carries that the alert
cycle reads (constructor arguments, lines 18-23). -/
structure MonitorConfig where
  server_name : String
  send_status_reports : Bool
deriving DecidableEq, Repr

/-- The `metrics` list built by `check_and_alert` (lines 196-225): the four
fixed metrics with their values from the getters and their levels from
`determine_alert_level`. -/
def cycle_metrics (tbl : ThresholdTable) (inp : RawInputs) : List Metric :=
  let layer_size := get_directory_size inp.layer_walk
  let home_size := get_home_dir_size_excluding_layer inp.home_walk
  let journal_size := get_journal_size inp.journal_parsed
  let sys := get_system_storage inp.disk_usage
  [ ⟨"layer_dir", "~/.layer Directory", layer_size,
      determine_alert_level layer_size tbl.layer_dir, "GB"⟩,
    ⟨"home_dir", "Home Directory (excl .layer)", home_size,
      determine_alert_level home_size tbl.home_dir, "GB"⟩,
    ⟨"journal_logs", "Journal Logs", journal_size,
      determine_alert_level journal_size tbl.journal_logs, "GB"⟩,
    ⟨"system_storage", "System Storage", sys.1,
      determine_alert_level sys.1 tbl.system_storage true, "%"⟩ ]

/-- The `alerts_to_send` list a cycle produces (lines 218-244). -/
def cycle_alerts (cfg : MonitorConfig) (tbl : ThresholdTable)
    (inp : RawInputs) (st : StateMap) : List String :=
  (alertLoop tbl.lookup cfg.server_name (cycle_metrics tbl inp) st).1

/-- Embeds `StorageMonitor.check_and_alert` (lines 191-267) by its
observable outcome: the list of messages handed to `send_discord_alert`, in
order (the joined alert message when `alerts_to_send` is non-empty, then
the status report when enabled), and the updated `self.last_states`. -/
def check_and_alert (cfg : MonitorConfig) (tbl : ThresholdTable)
    (inp : RawInputs) (st : StateMap) : List String × StateMap :=
  let layer_size := get_directory_size inp.layer_walk
  let home_size := get_home_dir_size_excluding_layer inp.home_walk
  let journal_size := get_journal_size inp.journal_parsed
  let sys := get_system_storage inp.disk_usage
  let r := alertLoop tbl.lookup cfg.server_name (cycle_metrics tbl inp) st
  let deliveries :=
    (if r.1.isEmpty then [] else [String.intercalate "\n\n" r.1])
      ++ (if cfg.send_status_reports then
            [format_status_report cfg.server_name layer_size home_size
              journal_size sys.1 sys.2.1 sys.2.2]
          else [])
  (deliveries, r.2)

/-- JSON values, the data written/read by the `json` standard library
(an external collaborator of this repository). -/
inductive Json where
  | str : String → Json
  | num : ℚ → Json
  | bool : Bool → Json
  | null : Json
  | arr : List Json → Json
  | obj : List (String × Json) → Json

/-- Embeds `StorageMonitor.save_state` (lines 46-52) at the level of the
JSON value written: `json.dump(self.last_states, f)` writes the state
mapping as a JSON object whose values are the level strings. -/
def save_state (st : StateMap) : Json :=
  Json.obj (st.map fun kv => (kv.1, Json.str kv.2))

/-- The observable condition of the state file when `load_state` runs:
absent, present but unreadable/unparseable (`json.load` or `open` raises),
or present with a parsed JSON value. -/
inductive FileState where
  | missing
  | corrupt
  | parsed : Json → FileState

/-- Embeds `StorageMonitor.load_state` (lines 36-44): the whole body is
wrapped in `try/except Exception: pass`, so the function is total — a
missing file or any exception while reading/parsing yields the empty
mapping `{}` (`Json.obj []`), and a successful parse yields the parsed
value. -/
def load_state : FileState → Json
  | .missing => Json.obj []
  | .corrupt => Json.obj []
  | .parsed j => j

/-- Reads a list of JSON object fields back as state-mapping entries;
`none` as soon as a value is not a string. -/
def decode_entries : List (String × Json) → Option StateMap
  | [] => some []
  | kv :: rest =>
    match kv.2 with
    | .str s => (decode_entries rest).map fun r => (kv.1, s) :: r
    | _ => none

/-- Reads a JSON value back as a state mapping: the inverse of the
representation `save_state` writes (a Python `Dict[str, str]` crosses the
`json` layer as an object of strings). `none` if the value is not such an
object. -/
def decode_state : Json → Option StateMap
  | .obj fields => decode_entries fields
  | _ => none

/-- The placeholder the source compares the webhook URL against
(line 290). -/
def placeholder_webhook : String := "YOUR_DISCORD_WEBHOOK_URL_HERE"

/-- The hardcoded fallback `WEBHOOK_URL` used when `config.py` cannot be
imported (line 283). -/
def fallback_webhook_url : String :=
  "https://discord.com/api/webhooks/1394315684002922568/7WnbZRSVTvtNzlpvqSPVjg7j-FZ1yNnNB1AuMd7CTsEFNO80GXE6Qd8eVEJ980RjiDyU"

/-- Embeds the webhook-URL resolution of `main` (lines 273-288):
`config.WEBHOOK_URL` when `config.py` imports, the hardcoded fallback on
`ImportError`. -/
def resolve_webhook_url (config_webhook : Option String) : String :=
  match config_webhook with
  | some u => u
  | none => fallback_webhook_url

/-- Observable outcome of running `main` up to (and including) the webhook
validation (lines 290-295): the messages printed, whether the monitoring
loop was entered, and the process exit status when it returns without
entering the loop. -/
structure StartupOutcome where
  exit_code : ℕ
  printed_messages : List String
  entered_monitor_loop : Bool
deriving DecidableEq, Repr

/-- Embeds the startup path of `main` (lines 270-308): if the resolved
webhook URL equals the placeholder, print an explanation and `return`
(a plain `return` from `main`, so the interpreter exits with status 0);
otherwise construct the monitor and enter the endless loop (the
`exit_code` field is irrelevant on that branch — the loop never returns). -/
def main_startup (config_webhook : Option String) : StartupOutcome :=
  if resolve_webhook_url config_webhook == placeholder_webhook then
    { exit_code := 0
      printed_messages :=
        [ "Please set your Discord webhook URL!"
          , "Either:"
          , "1. Edit the WEBHOOK_URL variable in storage_monitor.py"
          , "2. Create config.py based on config_example.py" ]
      entered_monitor_loop := false }
  else
    { exit_code := 0
      printed_messages := []
      entered_monitor_loop := true }

/-!  Classifier claims C2 and C10. -/

/-- C2: For every value v and thresholds (w, c) with w ≤ c, the classifier
returns `critical` iff v ≥ c, `warning` iff w ≤ v < c, and `normal`
otherwise (iff v < w); it is a pure total Lean function by construction. -/
theorem determine_alert_level_classifies (v w c : ℚ) (h : w ≤ c) :
    (determine_alert_level v ⟨w, c⟩ = "critical" ↔ c ≤ v) ∧
    (determine_alert_level v ⟨w, c⟩ = "warning" ↔ w ≤ v ∧ v < c) ∧
    (determine_alert_level v ⟨w, c⟩ = "normal" ↔ v < w) := by
  unfold determine_alert_level
  dsimp only
  split_ifs with h1 h2
  · refine ⟨⟨fun _ => h1, fun _ => rfl⟩, ?_, ?_⟩
    · constructor
      · intro hx; exact absurd hx (by decide)
      · rintro ⟨-, hlt⟩; exact absurd h1 (not_le.mpr hlt)
    · constructor
      · intro hx; exact absurd hx (by decide)
      · intro hlt; exact absurd h1 (not_le.mpr (lt_of_lt_of_le hlt h))
  · refine ⟨?_, ⟨fun _ => ⟨h2, not_le.mp h1⟩, fun _ => rfl⟩, ?_⟩
    · constructor
      · intro hx; exact absurd hx (by decide)
      · intro hc; exact absurd hc h1
    · constructor
      · intro hx; exact absurd hx (by decide)
      · intro hlt; exact absurd h2 (not_le.mpr hlt)
  · refine ⟨?_, ?_, ⟨fun _ => not_le.mp h2, fun _ => rfl⟩⟩
    · constructor
      · intro hx; exact absurd hx (by decide)
      · intro hc; exact absurd hc h1
    · constructor
      · intro hx; exact absurd hx (by decide)
      · rintro ⟨hw, -⟩; exact absurd hw h2

/-- Witness for C2 at v = 60, w = 50, c = 100. -/
theorem determine_alert_level_classifies_witness :
    (50 : ℚ) ≤ 100 ∧
    ((determine_alert_level 60 ⟨50, 100⟩ = "critical" ↔ (100 : ℚ) ≤ 60) ∧
     (determine_alert_level 60 ⟨50, 100⟩ = "warning" ↔ (50 : ℚ) ≤ 60 ∧ (60 : ℚ) < 100) ∧
     (determine_alert_level 60 ⟨50, 100⟩ = "normal" ↔ (60 : ℚ) < 50)) :=
  ⟨by norm_num, determine_alert_level_classifies 60 50 100 (by norm_num)⟩

/-- C10: the classification result never depends on the `is_percentage`
parameter: the source accepts it but its body never reads it. -/
theorem determine_alert_level_ignores_is_percentage
    (v : ℚ) (t : Thresholds) (b b' : Bool) :
    determine_alert_level v t b = determine_alert_level v t b' := rfl

/-!  Association-list (Python dict) lemmas. -/

/-- After `setKey st k v`, looking up `k` finds `v`. -/
theorem lookupKey_setKey_self (st : StateMap) (k v : String) :
    lookupKey (setKey st k v) k = some v := by
  induction st with
  | nil => simp [setKey, lookupKey]
  | cons p rest ih =>
    by_cases h : p.1 = k
    · simp [setKey, lookupKey, h]
    · simp [setKey, lookupKey, h, ih]

/-- `setKey st k v` does not change the lookup of any other key. -/
theorem lookupKey_setKey_ne (st : StateMap) (k k' v : String) (h : k' ≠ k) :
    lookupKey (setKey st k v) k' = lookupKey st k' := by
  induction st with
  | nil => simp [setKey, lookupKey, Ne.symm h]
  | cons p rest ih =>
    by_cases hp : p.1 = k
    · simp [setKey, lookupKey, hp, Ne.symm h]
    · simp [setKey, lookupKey, hp, ih]

/-!  Alert-loop lemmas. -/

/-- The source's two-branch alert decision coincides with the
specification's rule for all level strings. -/
theorem should_alert_eq_spec_rule (c l : String) :
    should_alert c l = spec_notify_rule c l := by
  have hspec : spec_notify_rule c l = true ↔ (c ≠ l ∧ (c ≠ "normal" ∨ l ≠ "normal")) := by
    simp [spec_notify_rule]
  unfold should_alert
  split_ifs with hA hB
  · simp only [Bool.and_eq_true, bne_iff_ne, ne_eq] at hA
    exact (hspec.mpr ⟨fun hh => hA.2 hh.symm, Or.inl hA.1⟩).symm
  · simp only [Bool.and_eq_true, bne_iff_ne, beq_iff_eq, ne_eq] at hB
    exact (hspec.mpr ⟨fun hh => hB.2 (hh ▸ hB.1), Or.inr hB.2⟩).symm
  · simp only [Bool.and_eq_true, bne_iff_ne, beq_iff_eq, ne_eq, not_and, not_not] at hA hB
    refine (Bool.eq_false_iff.mpr ?_).symm
    intro h
    obtain ⟨hne, hd⟩ := hspec.mp h
    by_cases hc : c = "normal"
    · rcases hd with hcn | hln
      · exact hcn hc
      · exact hln (hB hc)
    · exact hne (hA hc).symm

/-- Keys not belonging to any processed metric keep their prior lookup
through the alert loop. -/
theorem alertLoop_state_other (thr : String → Thresholds) (n : String)
    (metrics : List Metric) (st : StateMap) (k : String)
    (h : ∀ m ∈ metrics, m.key ≠ k) :
    lookupKey (alertLoop thr n metrics st).2 k = lookupKey st k := by
  induction metrics generalizing st with
  | nil => rfl
  | cons m rest ih =>
    show lookupKey (alertLoop thr n rest (setKey st m.key m.level)).2 k = lookupKey st k
    rw [ih (setKey st m.key m.level) (fun m' hm' => h m' (List.mem_cons_of_mem _ hm'))]
    exact lookupKey_setKey_ne st m.key k m.level
      (Ne.symm (h m (List.mem_cons_self _ _)))

/-- After the alert loop, every processed metric's key maps to the level
computed for it in that loop (keys pairwise distinct, as in the source's
fixed metric list). -/
theorem alertLoop_state_mem (thr : String → Thresholds) (n : String)
    (metrics : List Metric) (st : StateMap)
    (hnd : (metrics.map Metric.key).Nodup) (m : Metric) (hm : m ∈ metrics) :
    lookupKey (alertLoop thr n metrics st).2 m.key = some m.level := by
  induction metrics generalizing st with
  | nil => cases hm
  | cons m0 rest ih =>
    obtain ⟨hnotmem, hnd'⟩ :
        (∀ x ∈ rest, ¬x.key = m0.key) ∧ (rest.map Metric.key).Nodup := by
      simpa using hnd
    rcases List.mem_cons.mp hm with h | h
    · subst h
      show lookupKey (alertLoop thr n rest (setKey st m.key m.level)).2 m.key = some m.level
      rw [alertLoop_state_other thr n rest _ m.key hnotmem]
      exact lookupKey_setKey_self st m.key m.level
    · exact ih (setKey st m0.key m0.level) hnd' h

/-- The messages the alert loop collects are exactly the formatted blocks
of the metrics satisfying the specification's notification rule against
the prior state (keys pairwise distinct). -/
theorem alertLoop_messages (thr : String → Thresholds) (n : String)
    (metrics : List Metric) (st : StateMap)
    (hnd : (metrics.map Metric.key).Nodup) :
    (alertLoop thr n metrics st).1 =
      (metrics.filter fun m => spec_notify_rule m.level (stateGet st m.key)).map
        (fun m => format_alert_message n m.name m.value m.unit m.level
          (thr m.key).warning (thr m.key).critical) := by
  induction metrics generalizing st with
  | nil => rfl
  | cons m rest ih =>
    obtain ⟨hnotmem, hnd'⟩ :
        (∀ x ∈ rest, ¬x.key = m.key) ∧ (rest.map Metric.key).Nodup := by
      simpa using hnd
    have hfix : ∀ m' ∈ rest,
        spec_notify_rule m'.level (stateGet (setKey st m.key m.level) m'.key)
          = spec_notify_rule m'.level (stateGet st m'.key) := by
      intro m' hm'
      rw [stateGet, lookupKey_setKey_ne st m.key m'.key m.level (hnotmem m' hm'), stateGet]
    have hrest := ih (setKey st m.key m.level) hnd'
    rw [List.filter_congr hfix] at hrest
    show (if should_alert m.level (stateGet st m.key) then
            [format_alert_message n m.name m.value m.unit m.level
              (thr m.key).warning (thr m.key).critical]
          else []) ++ (alertLoop thr n rest (setKey st m.key m.level)).1 = _
    rw [hrest, should_alert_eq_spec_rule, List.filter_cons]
    by_cases hr : spec_notify_rule m.level (stateGet st m.key) <;> simp [hr]

/-- The four keys of a cycle's metric list, in order. -/
theorem cycle_metrics_keys (tbl : ThresholdTable) (inp : RawInputs) :
    (cycle_metrics tbl inp).map Metric.key
      = ["layer_dir", "home_dir", "journal_logs", "system_storage"] := rfl

/-- A cycle's metric keys are pairwise distinct. -/
theorem cycle_metrics_keys_nodup (tbl : ThresholdTable) (inp : RawInputs) :
    ((cycle_metrics tbl inp).map Metric.key).Nodup := by
  rw [cycle_metrics_keys]
  decide

/-- `check_and_alert`'s delivery list, spelt out: the joined alert message
when any alert fired, then the status report when enabled. -/
theorem check_and_alert_deliveries (cfg : MonitorConfig) (tbl : ThresholdTable)
    (inp : RawInputs) (st : StateMap) :
    (check_and_alert cfg tbl inp st).1 =
      (if (cycle_alerts cfg tbl inp st).isEmpty then []
       else [String.intercalate "\n\n" (cycle_alerts cfg tbl inp st)])
        ++ (if cfg.send_status_reports then
              [format_status_report cfg.server_name
                (get_directory_size inp.layer_walk)
                (get_home_dir_size_excluding_layer inp.home_walk)
                (get_journal_size inp.journal_parsed)
                (get_system_storage inp.disk_usage).1
                (get_system_storage inp.disk_usage).2.1
                (get_system_storage inp.disk_usage).2.2]
            else []) := rfl

/-!  Claim theorems. -/

/-- C1: For every metric evaluated in a cycle, with prior level
`prior_state.get(key, normal)`, a notification message is produced for
that metric iff `current_level != prior_level` and
(`current_level != normal` or `prior_level != normal`): the cycle's alert
list is exactly the formatted blocks of the metrics satisfying the
specification's rule; in particular an unchanged level (including repeated
normal) produces no message. -/
theorem cycle_notifies_iff_transition (cfg : MonitorConfig) (tbl : ThresholdTable)
    (inp : RawInputs) (st : StateMap) :
    cycle_alerts cfg tbl inp st =
      ((cycle_metrics tbl inp).filter fun m =>
          spec_notify_rule m.level (stateGet st m.key)).map
        (fun m => format_alert_message cfg.server_name m.name m.value m.unit m.level
          (tbl.lookup m.key).warning (tbl.lookup m.key).critical) :=
  alertLoop_messages tbl.lookup cfg.server_name (cycle_metrics tbl inp) st
    (cycle_metrics_keys_nodup tbl inp)

/-- C3: After every cycle, every metric evaluated in that cycle has its key
mapped in the new state to the level computed in that cycle, regardless of
whether a notification was emitted for it. -/
theorem cycle_state_records_level (cfg : MonitorConfig) (tbl : ThresholdTable)
    (inp : RawInputs) (st : StateMap) (m : Metric)
    (hm : m ∈ cycle_metrics tbl inp) :
    lookupKey (check_and_alert cfg tbl inp st).2 m.key = some m.level :=
  alertLoop_state_mem tbl.lookup cfg.server_name (cycle_metrics tbl inp) st
    (cycle_metrics_keys_nodup tbl inp) m hm

/-- Witness for C3: the `layer_dir` metric of a cycle with all collaborators
failing, against an empty prior state. -/
theorem cycle_state_records_level_witness :
    ((⟨"layer_dir", "~/.layer Directory", 0, "normal", "GB"⟩ : Metric)
        ∈ cycle_metrics default_thresholds ⟨none, none, none, none⟩) ∧
    lookupKey (check_and_alert ⟨"Server", false⟩ default_thresholds
        ⟨none, none, none, none⟩ []).2 "layer_dir" = some "normal" :=
  ⟨by decide, cycle_state_records_level ⟨"Server", false⟩ default_thresholds
      ⟨none, none, none, none⟩ []
      ⟨"layer_dir", "~/.layer Directory", 0, "normal", "GB"⟩ (by decide)⟩

/-- C7: Running the alert evaluation twice in a row on the same metric
sequence (distinct keys, as every cycle's sequence is), the second run
starting from the state produced by the first, produces no messages. -/
theorem evaluate_idempotent (thr : String → Thresholds) (n : String)
    (metrics : List Metric) (st : StateMap)
    (hnd : (metrics.map Metric.key).Nodup) :
    (alertLoop thr n metrics (alertLoop thr n metrics st).2).1 = [] := by
  rw [alertLoop_messages thr n metrics _ hnd]
  rw [List.map_eq_nil_iff, List.filter_eq_nil_iff]
  intro m hm
  have hlv := alertLoop_state_mem thr n metrics st hnd m hm
  simp [spec_notify_rule, stateGet, hlv]

/-- Witness for C7: one warning-level metric evaluated twice from the empty
prior state. -/
theorem evaluate_idempotent_witness :
    (([⟨"home_dir", "Home Directory (excl .layer)", 60, "warning", "GB"⟩] : List Metric).map
        Metric.key).Nodup ∧
    (alertLoop default_thresholds.lookup "Server"
        [⟨"home_dir", "Home Directory (excl .layer)", 60, "warning", "GB"⟩]
        (alertLoop default_thresholds.lookup "Server"
          [⟨"home_dir", "Home Directory (excl .layer)", 60, "warning", "GB"⟩] []).2).1 = [] :=
  ⟨by decide, evaluate_idempotent default_thresholds.lookup "Server"
      [⟨"home_dir", "Home Directory (excl .layer)", 60, "warning", "GB"⟩] [] (by decide)⟩

/-- C9: In every cycle in which at least one metric alerts, the dispatched
messages (status reports disabled, their source default) are exactly one
delivery whose text is all alerting metrics' formatted blocks joined by
blank lines — never one delivery per metric. -/
theorem alerts_single_delivery (name : String) (tbl : ThresholdTable)
    (inp : RawInputs) (st : StateMap)
    (h : cycle_alerts ⟨name, false⟩ tbl inp st ≠ []) :
    (check_and_alert ⟨name, false⟩ tbl inp st).1
      = [String.intercalate "\n\n" (cycle_alerts ⟨name, false⟩ tbl inp st)] ∧
    (check_and_alert ⟨name, false⟩ tbl inp st).1.length = 1 := by
  have hfalse : (cycle_alerts ⟨name, false⟩ tbl inp st).isEmpty = false := by
    cases hc : cycle_alerts ⟨name, false⟩ tbl inp st with
    | nil => exact absurd hc h
    | cons a l => rfl
  rw [check_and_alert_deliveries, hfalse]
  constructor <;> simp

/-- Witness for C9: all metric sources fail (values 0, level normal) while
the prior state holds `home_dir` at critical, so a recovery alert fires. -/
theorem alerts_single_delivery_witness :
    cycle_alerts ⟨"Server", false⟩ default_thresholds
        ⟨none, none, none, none⟩ [("home_dir", "critical")] ≠ [] ∧
    ((check_and_alert ⟨"Server", false⟩ default_thresholds
        ⟨none, none, none, none⟩ [("home_dir", "critical")]).1
      = [String.intercalate "\n\n" (cycle_alerts ⟨"Server", false⟩ default_thresholds
          ⟨none, none, none, none⟩ [("home_dir", "critical")])] ∧
     (check_and_alert ⟨"Server", false⟩ default_thresholds
        ⟨none, none, none, none⟩ [("home_dir", "critical")]).1.length = 1) :=
  ⟨by decide, alerts_single_delivery "Server" default_thresholds
      ⟨none, none, none, none⟩ [("home_dir", "critical")] (by decide)⟩

/-- C4 counterexample: with the journal metric unavailable
(`journalctl` fails, the source returns `0.0`) and a prior state holding
`journal_logs` at critical, the cycle does NOT leave the stored level
unchanged: it is overwritten with `normal`, the classification of 0.0. -/
theorem metric_failure_overwrites_state :
    stateGet (check_and_alert ⟨"Server", false⟩ default_thresholds
        ⟨none, none, none, none⟩ [("journal_logs", "critical")]).2 "journal_logs"
      = "normal" ∧ ("normal" : String) ≠ "critical" := by
  constructor <;> decide

/-- C4 amended: when a metric's value cannot be obtained, the cycle
continues, but the metric is reported as 0.0 (not skipped): it is
classified at value 0 and the stored level for its key is updated to that
classification, overwriting the prior level (shown here for the journal
metric; the other getters behave identically). -/
theorem metric_failure_reclassifies_at_zero (cfg : MonitorConfig)
    (tbl : ThresholdTable) (inp : RawInputs) (st : StateMap)
    (h : inp.journal_parsed = none) :
    get_journal_size inp.journal_parsed = 0 ∧
    lookupKey (check_and_alert cfg tbl inp st).2 "journal_logs"
      = some (determine_alert_level 0 tbl.journal_logs) := by
  constructor
  · rw [h]; rfl
  · have hm : (⟨"journal_logs", "Journal Logs", get_journal_size inp.journal_parsed,
        determine_alert_level (get_journal_size inp.journal_parsed) tbl.journal_logs,
        "GB"⟩ : Metric) ∈ cycle_metrics tbl inp := by
      simp [cycle_metrics]
    have hst := alertLoop_state_mem tbl.lookup cfg.server_name (cycle_metrics tbl inp) st
      (cycle_metrics_keys_nodup tbl inp) _ hm
    rw [h] at hst
    exact hst

/-- Witness for the amended C4: all metric sources failing, empty prior
state. -/
theorem metric_failure_reclassifies_at_zero_witness :
    (⟨none, none, none, none⟩ : RawInputs).journal_parsed = none ∧
    (get_journal_size (⟨none, none, none, none⟩ : RawInputs).journal_parsed = 0 ∧
     lookupKey (check_and_alert ⟨"Server", false⟩ default_thresholds
         ⟨none, none, none, none⟩ []).2 "journal_logs"
       = some (determine_alert_level 0 default_thresholds.journal_logs)) :=
  ⟨rfl, metric_failure_reclassifies_at_zero ⟨"Server", false⟩ default_thresholds
      ⟨none, none, none, none⟩ [] rfl⟩

/-- C5: `load_state` is a total function (the source wraps its whole body
in `try/except Exception`, so it never raises), and on a missing or
unreadable/unparseable state file it returns the empty mapping `{}`. -/
theorem load_state_empty_on_failure :
    load_state FileState.missing = Json.obj [] ∧
    load_state FileState.corrupt = Json.obj [] :=
  ⟨rfl, rfl⟩

/-- Saving any state mapping and loading it back yields the same mapping
(no validity assumption needed). -/
theorem decode_save (st : StateMap) : decode_state (save_state st) = some st := by
  induction st with
  | nil => rfl
  | cons kv rest ih =>
    show ((decode_entries (rest.map fun p => (p.1, Json.str p.2))).map
        fun r => (kv.1, kv.2) :: r) = some (kv :: rest)
    have hrest : decode_entries (rest.map fun p => (p.1, Json.str p.2)) = some rest := ih
    rw [hrest]
    rfl

/-- C6: for every mapping from metric keys to valid levels, `save` followed
by `load` yields a mapping equal to the one saved. -/
theorem save_load_roundtrip (st : StateMap)
    (h : ∀ kv ∈ st, kv.2 = "normal" ∨ kv.2 = "warning" ∨ kv.2 = "critical") :
    decode_state (load_state (FileState.parsed (save_state st))) = some st :=
  decode_save st

/-- Witness for C6 at a concrete two-entry mapping of valid levels. -/
theorem save_load_roundtrip_witness :
    (∀ kv ∈ ([("home_dir", "warning"), ("system_storage", "critical")] : StateMap),
        kv.2 = "normal" ∨ kv.2 = "warning" ∨ kv.2 = "critical") ∧
    decode_state (load_state (FileState.parsed
        (save_state [("home_dir", "warning"), ("system_storage", "critical")])))
      = some [("home_dir", "warning"), ("system_storage", "critical")] :=
  ⟨by decide, save_load_roundtrip
      [("home_dir", "warning"), ("system_storage", "critical")] (by decide)⟩

/-- C8 counterexample: with the webhook URL left at the unset placeholder,
`main` prints its explanation and executes a plain `return`, so the
process exits with status 0 — not non-zero as the claim states. -/
theorem placeholder_webhook_exit_code_zero :
    (main_startup (some placeholder_webhook)).exit_code = 0 ∧
    ¬(main_startup (some placeholder_webhook)).exit_code ≠ 0 := by
  constructor <;> decide

/-- C8 amended: if the webhook URL is left at the unset placeholder, the
process refuses to start before any cycle runs and prints an explanatory
message, but it exits with status zero, not non-zero. -/
theorem placeholder_webhook_refuses_start :
    (main_startup (some placeholder_webhook)).entered_monitor_loop = false ∧
    (main_startup (some placeholder_webhook)).printed_messages ≠ [] ∧
    (main_startup (some placeholder_webhook)).exit_code = 0 := by
  refine ⟨?_, ?_, ?_⟩ <;> decide
